import Mathlib

/-!
Shallow embedding of the `wasm-stopwatch` crate (`src/lib.rs`).

The Rust `Stopwatch` stores `start_time : f64`, `paused_at : Option<f64>` and
`speed : f64`.  We model `f64` values by exact rationals (`ℚ`); "within
floating-point tolerance" becomes exact equality.  The external monotonic time
source (`Self::get_raw_time()`) is modelled by passing the current raw reading
`now : ℚ` explicitly to every operation that reads the clock in the source.
Operations that mutate `&mut self` become functions `Stopwatch → ... → Stopwatch`;
`sleep_until`, which can panic, returns `Except Unit (Option ℚ)` where
`Except.error ()` is the panic and the `Option ℚ` is the duration handed to the
blocking-sleep capability (`none` when `sleep` returns without sleeping).
-/

structure Stopwatch where
  start_time : ℚ
  paused_at : Option ℚ
  speed : ℚ
deriving DecidableEq, Repr

namespace Stopwatch

/-- `Stopwatch::with_speed`: anchors `start_time` at the current raw reading. -/
def with_speed (speed : ℚ) (now : ℚ) : Stopwatch :=
  { start_time := now, paused_at := none, speed := speed }

/-- `Stopwatch::new()`: `Self::with_speed(1.0)`. -/
def new (now : ℚ) : Stopwatch :=
  with_speed 1 now

/-- `impl Default for Stopwatch`: `Self::new()`. -/
def defaultStopwatch (now : ℚ) : Stopwatch :=
  new now

/-- `Stopwatch::paused`: `self.paused_at.is_some()`. -/
def paused (s : Stopwatch) : Bool :=
  s.paused_at.isSome

/-- `Stopwatch::get_end_time`: `paused_at` if present, else a fresh raw reading. -/
def get_end_time (s : Stopwatch) (now : ℚ) : ℚ :=
  match s.paused_at with
  | none => now
  | some p => p

/-- `Stopwatch::pause`: `self.paused_at = Some(self.get_end_time())`. -/
def pause (s : Stopwatch) (now : ℚ) : Stopwatch :=
  { s with paused_at := some (s.get_end_time now) }

/-- `Stopwatch::get_time`: `(self.get_end_time() - self.start_time) * self.speed`. -/
def get_time (s : Stopwatch) (now : ℚ) : ℚ :=
  (s.get_end_time now - s.start_time) * s.speed

/-- `Stopwatch::unpause`: if paused, `start_time = raw - get_time()`, clear `paused_at`. -/
def unpause (s : Stopwatch) (now : ℚ) : Stopwatch :=
  if s.paused then
    { s with start_time := now - s.get_time now, paused_at := none }
  else s

/-- `Stopwatch::toggle_pause`. -/
def toggle_pause (s : Stopwatch) (now : ℚ) : Stopwatch :=
  if s.paused then s.unpause now else s.pause now

/-- `Stopwatch::set_time`: `start_time = get_end_time() - cur_time / speed`;
if paused, `paused_at = Some(start_time)` (the freshly written field). -/
def set_time (s : Stopwatch) (now : ℚ) (cur_time : ℚ) : Stopwatch :=
  let st := s.get_end_time now - cur_time / s.speed
  if s.paused then
    { s with start_time := st, paused_at := some st }
  else
    { s with start_time := st }

/-- `Stopwatch::reset`: `self.set_time(0.0)`. -/
def reset (s : Stopwatch) (now : ℚ) : Stopwatch :=
  s.set_time now 0

/-- `Stopwatch::add_time`: `start_time -= time_diff / speed`; if paused,
`paused_at = Some(paused_at + time_diff)`. -/
def add_time (s : Stopwatch) (time_diff : ℚ) : Stopwatch :=
  { s with start_time := s.start_time - time_diff / s.speed,
           paused_at := match s.paused_at with
                        | none => none
                        | some p => some (p + time_diff) }

/-- `Stopwatch::sleep` (free helper): sleeps for `time_diff` iff `time_diff > 0.0`. -/
def sleepFor (time_diff : ℚ) : Option ℚ :=
  if time_diff > 0 then some time_diff else none

/-- `Stopwatch::sleep_until`: `assert!(!self.paused())`, then
`Self::sleep(time / self.speed - self.get_time())`.  `Except.error ()` models
the assertion panic. -/
def sleep_until (s : Stopwatch) (now : ℚ) (time : ℚ) : Except Unit (Option ℚ) :=
  if s.paused then Except.error ()
  else Except.ok (sleepFor (time / s.speed - s.get_time now))

/-- C1: the claimed pause/resume consistency fails at speed 2.  A stopwatch
constructed with speed 2 at raw time 0 reads `t0 = 2` at raw time 1; pausing
at raw time 1, letting the clock advance to 5, unpausing and reading again
yields `t1 = 4 = t0 * speed`, not `t0`: `unpause` subtracts the *scaled*
`get_time()` rather than the raw elapsed time from the fresh raw reading. -/
theorem unpause_after_pause_scales_elapsed_time :
    (with_speed 2 0).get_time 1 = 2 ∧
    (((with_speed 2 0).pause 1).unpause 5).get_time 5 = 4 := by
  constructor <;> norm_num [get_time, get_end_time, with_speed, unpause, pause, paused]

/-- C2: the set/get round-trip fails while paused.  For a stopwatch created at
raw time 0 with speed 1 and paused at raw time 10, `set_time(5)` followed
immediately by `get_time()` returns 0, not 5: `set_time` while paused
overwrites `paused_at` with the freshly written `start_time`, collapsing the
elapsed interval to zero. -/
theorem set_time_while_paused_returns_zero :
    ((with_speed 1 0).pause 10).paused = true ∧
    (((with_speed 1 0).pause 10).set_time 10 5).get_time 10 = 0 := by
  refine ⟨rfl, ?_⟩
  norm_num [get_time, get_end_time, with_speed, set_time, pause, paused]

/-- C3: add_time additivity fails while paused.  For a stopwatch created at raw
time 0 with speed 1 and paused at raw time 10, `set_time(5); add_time(1);
get_time()` returns 2, not 6: `set_time` zeroes the paused elapsed time (C2)
and `add_time` while paused advances logical time by `d * (1 + speed)` (it both
shifts `start_time` back by `d / speed` and moves `paused_at` forward by `d`). -/
theorem add_time_after_set_time_while_paused_not_additive :
    ((((with_speed 1 0).pause 10).set_time 10 5).add_time 1).get_time 10 = 2 := by
  norm_num [get_time, get_end_time, with_speed, set_time, add_time, pause, paused]

/-- C4: `get_time` returns `(end_time - start_time) * speed`, where `end_time`
is the frozen `paused_at` value when paused and the fresh raw reading when
running.  (`get_time` takes the state immutably and returns only a number, so
it mutates no stopwatch state by construction.) -/
theorem get_time_spec (s : Stopwatch) (now : ℚ) :
    s.get_time now =
      ((if s.paused then s.paused_at.getD now else now) - s.start_time) * s.speed := by
  cases h : s.paused_at <;> simp [get_time, get_end_time, paused, h]

/-- C5: `sleep_until` panics (models as `Except.error ()`) exactly when the
stopwatch is paused; when running it returns normally, sleeping for
`target / speed - get_time()` seconds when that interval is positive and not
sleeping at all otherwise. -/
theorem sleep_until_spec (s : Stopwatch) (now target : ℚ) :
    (s.paused = true → s.sleep_until now target = Except.error ()) ∧
    (s.paused = false →
      s.sleep_until now target =
        Except.ok (if 0 < target / s.speed - s.get_time now
                   then some (target / s.speed - s.get_time now) else none)) := by
  constructor <;> intro h <;> simp [sleep_until, sleepFor, h]

/-- Witness for C5 at concrete inputs: a stopwatch paused at raw time 2 errors,
and a running speed-1 stopwatch created at raw time 0, queried at raw time 3
with target 7, sleeps for 4 seconds. -/
theorem sleep_until_spec_witness :
    ((with_speed 1 0).pause 2).paused = true ∧
    ((with_speed 1 0).pause 2).sleep_until 3 7 = Except.error () ∧
    (with_speed 1 0).paused = false ∧
    (with_speed 1 0).sleep_until 3 7 = Except.ok (some 4) := by
  refine ⟨rfl, (sleep_until_spec _ 3 7).1 rfl, rfl, ?_⟩
  rw [(sleep_until_spec (with_speed 1 0) 3 7).2 rfl]
  norm_num [with_speed, get_time, get_end_time]

/-- C6: `pause` is idempotent — pausing twice (at any pair of raw times) gives
the same state as pausing once, and pausing an already-paused stopwatch leaves
the whole state unchanged. -/
theorem pause_idem (s : Stopwatch) (now1 now2 : ℚ) :
    (s.pause now1).pause now2 = s.pause now1 ∧
    (s.paused = true → s.pause now2 = s) := by
  constructor
  · simp [pause, get_end_time]
  · intro h
    cases hp : s.paused_at with
    | none => simp [paused, hp] at h
    | some p => cases s; simp_all [pause, get_end_time]

/-- Witness for C6 at a concrete input: a speed-1 stopwatch created at raw time
0 and paused at raw time 2 is unchanged by a second `pause` at raw time 9. -/
theorem pause_idem_witness :
    ((with_speed 1 0).pause 2).pause 9 = (with_speed 1 0).pause 2 ∧
    ((with_speed 1 0).pause 2).paused = true := by
  exact ⟨(pause_idem ((with_speed 1 0).pause 2) 0 9).2 rfl, rfl⟩

/-- C7: the `speed` field is set at construction and left unchanged by every
state-mutating operation (`pause`, `unpause`, `toggle_pause`, `set_time`,
`reset`, `add_time`); `get_time` and `sleep_until` take the state immutably. -/
theorem speed_frame (s : Stopwatch) (now v d : ℚ) :
    (with_speed v now).speed = v ∧
    (s.pause now).speed = s.speed ∧
    (s.unpause now).speed = s.speed ∧
    (s.toggle_pause now).speed = s.speed ∧
    (s.set_time now v).speed = s.speed ∧
    (s.reset now).speed = s.speed ∧
    (s.add_time d).speed = s.speed := by
  refine ⟨rfl, rfl, ?_, ?_, ?_, ?_, rfl⟩ <;>
    simp only [unpause, toggle_pause, set_time, reset, pause] <;>
    split_ifs <;> rfl

/-- C8: `Default::default()` is exactly `Stopwatch::new()`: an unpaused
stopwatch with speed 1 whose logical time, read at the construction-time raw
reading, is 0. -/
theorem default_eq_new (now : ℚ) :
    defaultStopwatch now = new now ∧
    (defaultStopwatch now).speed = 1 ∧
    (defaultStopwatch now).paused = false ∧
    (defaultStopwatch now).get_time now = 0 := by
  refine ⟨rfl, rfl, rfl, ?_⟩
  simp [defaultStopwatch, new, with_speed, get_time, get_end_time]

/-- C9: while paused, `get_time` never consults the time source — it returns
the same value for any two raw-clock readings. -/
theorem paused_get_time_const (s : Stopwatch) (now1 now2 : ℚ)
    (h : s.paused = true) :
    s.get_time now1 = s.get_time now2 := by
  cases hp : s.paused_at with
  | none => simp [paused, hp] at h
  | some p => simp [get_time, get_end_time, hp]

/-- Witness for C9 at a concrete input: a stopwatch paused at raw time 2 reads
the same logical time at raw times 3 and 99. -/
theorem paused_get_time_const_witness :
    ((with_speed 1 0).pause 2).paused = true ∧
    ((with_speed 1 0).pause 2).get_time 3 = ((with_speed 1 0).pause 2).get_time 99 :=
  ⟨rfl, paused_get_time_const ((with_speed 1 0).pause 2) 3 99 rfl⟩

/-- C10: `set_time`, `reset` and `add_time` preserve the pause state
(`paused_at.is_some()`); `get_time` takes the state immutably and so preserves
it trivially. -/
theorem pause_state_frame (s : Stopwatch) (now v d : ℚ) :
    (s.set_time now v).paused = s.paused ∧
    (s.reset now).paused = s.paused ∧
    (s.add_time d).paused = s.paused := by
  cases h : s.paused_at <;>
    simp [set_time, reset, add_time, paused, h]

end Stopwatch
